import Mathlib

/-!
Verification development for the LocatorInspector core (src/content.js):
locator candidate generation, stability scoring/ranking, accessible-name and
role resolution, selector synthesis, match counting and framework code
emission.  The DOM is modelled as an immutable rose tree; an element is
addressed by a path of child indexes from the document root.  Rendering
facts read through the browser (bounding rect, computed style) are carried
as fields of the element record.  Arbitrary query execution
(`document.querySelectorAll`, `document.evaluate`) is modelled as an oracle
pair `QueryOracle`: `none` models a thrown exception, `some n` a successful
execution returning `n` matches.
-/

namespace LocatorInspector

/-! ### JavaScript string helpers -/

/-- JavaScript truthiness of a nullable string: `null`/`undefined` and the
empty string are falsy. -/
def jsTruthy : Option String → Bool
  | some s => s ≠ ""
  | none => false

/-- JavaScript `String.prototype.trim()`: strip leading and trailing
whitespace. -/
def trimStr (s : String) : String :=
  ⟨((s.data.dropWhile Char.isWhitespace).reverse.dropWhile Char.isWhitespace).reverse⟩

/-- Model of `String.prototype.toLowerCase()` restricted to ASCII, which covers
every lower-cased value in the analysed code (HTML tag names). -/
def lowerAscii (s : String) : String :=
  ⟨s.data.map (fun c => if 'A' ≤ c && c ≤ 'Z' then Char.ofNat (c.toNat + 32) else c)⟩

/-- One step of `replace(/\s+/g, ' ')`: collapse every maximal whitespace
run to a single space.  The flag records whether the previous character was
part of a whitespace run. -/
def collapseWsAux : Bool → List Char → List Char
  | _, [] => []
  | prevWs, c :: cs =>
    if c.isWhitespace then
      (if prevWs then [] else [' ']) ++ collapseWsAux true cs
    else
      c :: collapseWsAux false cs

/-- JavaScript `s.replace(/\s+/g, ' ')`. -/
def collapseWs (s : String) : String := ⟨collapseWsAux false s.data⟩

/-! ### Dynamic-content heuristics (`hasDynamicParts`, content.js 1382-1396) -/

/-- ASCII hexadecimal digit (the `/i`-flagged `[0-9a-f]` class). -/
def isHexCh (c : Char) : Bool :=
  c.isDigit || (('a' ≤ c && c ≤ 'f') || ('A' ≤ c && c ≤ 'F'))

/-- ASCII letter (the `/i`-flagged `[a-z]` class). -/
def isLetterCh (c : Char) : Bool :=
  ('a' ≤ c && c ≤ 'z') || ('A' ≤ c && c ≤ 'Z')

/-- Does some suffix of the list satisfy `f`?  Scanning all suffixes models
an unanchored regex search. -/
def anySuffix (f : List Char → Bool) : List Char → Bool
  | [] => f []
  | c :: cs => f (c :: cs) || anySuffix f cs

/-- Do the first `k` characters exist and satisfy `p`? -/
def startsRun (p : Char → Bool) : Nat → List Char → Bool
  | 0, _ => true
  | _ + 1, [] => false
  | k + 1, c :: cs => p c && startsRun p k cs

/-- Consume exactly `k` characters satisfying `p`, returning the rest. -/
def consume (p : Char → Bool) : Nat → List Char → Option (List Char)
  | 0, cs => some cs
  | _ + 1, [] => none
  | k + 1, c :: cs => if p c then consume p k cs else none

/-- Consume one literal character. -/
def consumeCh (ch : Char) : List Char → Option (List Char)
  | [] => none
  | c :: cs => if c == ch then some cs else none

/-- Anchored match of the UUID pattern
`[0-9a-f]{8}-[0-9a-f]{4}-[0-9a-f]{4}-[0-9a-f]{4}-[0-9a-f]{12}` (with `/i`). -/
def uuidAt (cs : List Char) : Bool :=
  (do
    let r ← consume isHexCh 8 cs
    let r ← consumeCh '-' r
    let r ← consume isHexCh 4 r
    let r ← consumeCh '-' r
    let r ← consume isHexCh 4 r
    let r ← consumeCh '-' r
    let r ← consume isHexCh 4 r
    let r ← consumeCh '-' r
    consume isHexCh 12 r).isSome

/-- Anchored match of `#[0-9a-f]{6}` (with `/i`). -/
def hexColorAt (cs : List Char) : Bool :=
  (consumeCh '#' cs >>= consume isHexCh 6).isSome

/-- Anchored match of `jss\d+` (with `/i`). -/
def jssAt : List Char → Bool
  | j :: s1 :: s2 :: rest =>
    (j == 'j' || j == 'J') && (s1 == 's' || s1 == 'S') && (s2 == 's' || s2 == 'S') &&
      startsRun Char.isDigit 1 rest
  | _ => false

/-- Anchored match of `[a-z]+\d+[a-z]+\d+` (with `/i`).  The letter and
digit classes are disjoint, so maximal munch is exact. -/
def mixedAt (cs : List Char) : Bool :=
  let (l1, r1) := cs.span isLetterCh
  let (d1, r2) := r1.span Char.isDigit
  let (l2, r3) := r2.span isLetterCh
  !l1.isEmpty && !d1.isEmpty && !l2.isEmpty && startsRun Char.isDigit 1 r3

/-- Anchored match of `:\d+`. -/
def portAt : List Char → Bool
  | ':' :: c :: _ => c.isDigit
  | _ => false

/-- Embedding of `hasDynamicParts(str)` (content.js 1382-1396): a literal looks
generated/unstable when any of seven regex heuristics matches — a run of 4+
digits, a UUID, a `#`-prefixed 6-hex-digit color, `jss<digits>`, a
letters/digits/letters/digits alternation, a `:<digits>` suffix, or a run
of 13+ digits. -/
def hasDynamicParts (s : String) : Bool :=
  if s = "" then false
  else
    let cs := s.data
    anySuffix (startsRun Char.isDigit 4) cs ||
    anySuffix uuidAt cs ||
    anySuffix hexColorAt cs ||
    anySuffix jssAt cs ||
    anySuffix mixedAt cs ||
    anySuffix portAt cs ||
    anySuffix (startsRun Char.isDigit 13) cs

/-! ### DOM model

An element carries its tag name (upper-cased, as `Element.tagName` reports
for HTML documents), its attribute list in document order, and the
rendering facts the code reads through `getBoundingClientRect` /
`getComputedStyle`. -/

structure ElemData where
  tagName : String
  attrs : List (String × String)
  rectWidth : Nat := 0
  rectHeight : Nat := 0
  styleDisplay : String := "block"
  styleVisibility : String := "visible"
  styleOpacity : String := "1"
deriving Repr, DecidableEq

/-- A DOM node: an element with child nodes, or a text node.  Comment and
other node kinds are irrelevant to every analysed function and omitted. -/
inductive DomNode where
  | elem : ElemData → List DomNode → DomNode
  | text : String → DomNode
deriving Repr

/-- A document: the root element (`document.documentElement`) plus the
path of `document.body` below it. -/
structure Doc where
  root : DomNode
  bodyPath : List Nat := [0]
deriving Repr

/-- Model of `element.getAttribute(name)`: first attribute with the given name, or
`null`. -/
def getAttr (e : ElemData) (nm : String) : Option String :=
  (e.attrs.find? (fun a => a.1 == nm)).map (fun a => a.2)

/-- The `element.id` property: the `id` attribute, or `""` when absent. -/
def elemId (e : ElemData) : String := (getAttr e "id").getD ""

/-- The `element.className` property: the `class` attribute, or `""`. -/
def elemClassName (e : ElemData) : String := (getAttr e "class").getD ""

mutual

/-- Model of `node.textContent`: concatenation of all descendant text. -/
def nodeTextContent : DomNode → String
  | .text s => s
  | .elem _ cs => listTextContent cs

/-- The `textContent` of a forest, in document order. -/
def listTextContent : List DomNode → String
  | [] => ""
  | n :: ns => nodeTextContent n ++ listTextContent ns

end

mutual

/-- First element (preorder document order) whose data satisfies `p`,
returned with its subtree. -/
def findNode (p : ElemData → Bool) : DomNode → Option DomNode
  | .text _ => none
  | .elem e cs => if p e then some (.elem e cs) else findNodeList p cs

/-- Runs `findNode` over a forest in document order. -/
def findNodeList (p : ElemData → Bool) : List DomNode → Option DomNode
  | [] => none
  | n :: ns =>
    match findNode p n with
    | some r => some r
    | none => findNodeList p ns

end

/-- Model of `document.getElementById(i)` (callers only pass non-empty ids). -/
def getById (d : Doc) (i : String) : Option DomNode :=
  findNode (fun e => elemId e == i) d.root

/-- Model of `document.querySelector('label[for="i"]')`: first `label` element whose
`for` attribute equals `i`, in document order. -/
def queryLabelFor (d : Doc) (i : String) : Option DomNode :=
  findNode (fun e => e.tagName == "LABEL" && getAttr e "for" == some i) d.root

/-- Child node at index `i` (over `childNodes`, text nodes included). -/
def childAt : DomNode → Nat → Option DomNode
  | .elem _ cs, i => cs[i]?
  | .text _, _ => none

/-- Follow a path of child indexes from a node. -/
def getNode : DomNode → List Nat → Option DomNode
  | n, [] => some n
  | n, i :: p =>
    match childAt n i with
    | some c => getNode c p
    | none => none

/-- Node addressed by a path from the document root. -/
def docNode (d : Doc) (p : List Nat) : Option DomNode := getNode d.root p

/-- Element data addressed by a path from the document root. -/
def docElem (d : Doc) (p : List Nat) : Option ElemData :=
  match docNode d p with
  | some (.elem e _) => some e
  | _ => none

/-! ### Accessible Name and Role Resolver (content.js 855-934) -/

/-- The fixed tag-to-role table inside `getImplicitRole`. -/
def roleMapLookup (t : String) : Option String :=
  if t == "BUTTON" then some "button"
  else if t == "A" then some "link"
  else if t == "INPUT" then some "textbox"
  else if t == "TEXTAREA" then some "textbox"
  else if t == "SELECT" then some "combobox"
  else if t == "H1" || t == "H2" || t == "H3" || t == "H4" || t == "H5" || t == "H6" then
    some "heading"
  else if t == "NAV" then some "navigation"
  else if t == "MAIN" then some "main"
  else if t == "FORM" then some "form"
  else none

/-- Embedding of `getImplicitRole(element)` (content.js 855-885): the table role, with the
four special `input` types returning early. -/
def getImplicitRole (e : ElemData) : Option String :=
  if e.tagName == "INPUT" then
    match getAttr e "type" with
    | some "checkbox" => some "checkbox"
    | some "radio" => some "radio"
    | some "submit" => some "button"
    | some "button" => some "button"
    | _ => roleMapLookup e.tagName
  else roleMapLookup e.tagName

/-- The inline role resolution in `generateLocators` (content.js 714):
`element.getAttribute('role') || this.getImplicitRole(element)`. -/
def resolveRole (e : ElemData) : Option String :=
  if jsTruthy (getAttr e "role") then getAttr e "role" else getImplicitRole e

/-- Steps 3-6 of `getAccessibleName` (content.js 905-933): the tag-specific
fallbacks tried after `aria-label` and `aria-labelledby`. -/
def accNameTagSteps (d : Doc) (ed : ElemData) (node : DomNode) : Option String :=
  if ed.tagName == "BUTTON" then
    let t := trimStr (nodeTextContent node)
    if t ≠ "" then some t else none
  else if ed.tagName == "INPUT" then
    let byLabel :=
      if elemId ed ≠ "" then
        match queryLabelFor d (elemId ed) with
        | some l => some (trimStr (nodeTextContent l))
        | none => none
      else none
    match byLabel with
    | some t => some t
    | none =>
      match getAttr ed "placeholder" with
      | some ph => if ph ≠ "" then some ph else none
      | none => none
  else if ed.tagName == "A" then
    let t := trimStr (nodeTextContent node)
    if t ≠ "" then some t else none
  else if ed.tagName == "IMG" then
    match getAttr ed "alt" with
    | some a => if a ≠ "" then some a else none
    | none => none
  else none

/-- Embedding of `getAccessibleName(element)` (content.js 892-934), on the element data
and its subtree: `aria-label` if truthy, else the `aria-labelledby`
referent's trimmed text when the id resolves, else the tag-specific steps. -/
def accNameOf (d : Doc) (ed : ElemData) (node : DomNode) : Option String :=
  if jsTruthy (getAttr ed "aria-label") then getAttr ed "aria-label"
  else
    let byLabelledBy :=
      match getAttr ed "aria-labelledby" with
      | some t =>
        if t ≠ "" then
          match getById d t with
          | some labelNode => some (trimStr (nodeTextContent labelNode))
          | none => none
        else none
      | none => none
    match byLabelledBy with
    | some r => some r
    | none => accNameTagSteps d ed node

/-- The resolver `getAccessibleName` addressed by path. -/
def getAccessibleName (d : Doc) (p : List Nat) : Option String :=
  match docNode d p with
  | some (.elem ed cs) => accNameOf d ed (.elem ed cs)
  | _ => none

/-! ### Selector Synthesizer (content.js 1086-1156) -/

/-- One level of the CSS ancestor walk (content.js 1096-1114):
`tag[.firstClassToken][attr="value"]`, where the class token is the part of
`className` before the first space (used only when non-empty and
colon-free) and the attribute suffix is the first of
`name, placeholder, title, type` whose value is truthy and not dynamic. -/
def cssLevel (e : ElemData) : String :=
  let sel := lowerAscii e.tagName
  let sel :=
    if elemClassName e ≠ "" then
      let firstClass : String := ⟨(elemClassName e).data.takeWhile (fun c => c ≠ ' ')⟩
      if firstClass ≠ "" && !(firstClass.data.contains ':') then sel ++ "." ++ firstClass else sel
    else sel
  match firstGoodAttr e ["name", "placeholder", "title", "type"] with
  | some av => sel ++ "[" ++ av.1 ++ "=\"" ++ av.2 ++ "\"]"
  | none => sel
where
  firstGoodAttr (e : ElemData) : List String → Option (String × String)
    | [] => none
    | a :: rest =>
      match getAttr e a with
      | some v =>
        if v ≠ "" && !hasDynamicParts v then some (a, v) else firstGoodAttr e rest
      | none => firstGoodAttr e rest

/-- The `while` walk of `generateCssSelector` (content.js 1091-1119):
climb through `parentElement` while the current node exists, is not
`document.body`, and fewer than 5 levels were emitted; levels are listed
root-first (`unshift`).  The walk recurses on the reversed (leaf-to-root)
path `rp`, matching the loop's `current = current.parentElement` step;
`rp = []` is `documentElement`, whose parent ends the loop. -/
def cssWalk (d : Doc) : List Nat → Nat → List String
  | rp, depth =>
    if 5 ≤ depth then []
    else if rp.reverse = d.bodyPath then []
    else
      match docNode d rp.reverse with
      | some (.elem e _) =>
        (match rp with
         | [] => []
         | _ :: rest => cssWalk d rest (depth + 1)) ++ [cssLevel e]
      | _ => []

/-- Embedding of `generateCssSelector(element)` (content.js 1086-1122): any non-empty
`id` short-circuits to `#id`; otherwise the bounded ancestor walk joined
with a child combinator. -/
def generateCssSelector (d : Doc) (p : List Nat) : String :=
  match docElem d p with
  | some e =>
    if elemId e ≠ "" then "#" ++ elemId e
    else String.intercalate " > " (cssWalk d p.reverse 0)
  | none => ""

/-- Count of preceding element siblings with the same tag
(content.js 1139-1145). -/
def precedingSameTag (d : Doc) (p : List Nat) : Nat :=
  match p.getLast?, docNode d p with
  | some i, some (.elem e _) =>
    match docNode d p.dropLast with
    | some (.elem _ cs) =>
      ((cs.take i).filter (fun n =>
        match n with
        | .elem e2 _ => e2.tagName == e.tagName
        | .text _ => false)).length
    | _ => 0
  | _, _ => 0

/-- One XPath step (content.js 1147-1148): `tag[index+1]` when there is a
preceding same-tag sibling, else bare `tag`. -/
def xpathPart (d : Doc) (p : List Nat) : String :=
  match docNode d p with
  | some (.elem e _) =>
    let idx := precedingSameTag d p
    if idx ≠ 0 then lowerAscii e.tagName ++ "[" ++ toString (idx + 1) ++ "]"
    else lowerAscii e.tagName
  | _ => ""

/-- The ancestor walk of `generateXPath` (content.js 1134-1153), listing
steps root-first; the walk recurses on the reversed (leaf-to-root) path,
matching `current = current.parentElement`, and the loop breaks after
processing `documentElement` (`rp = []`). -/
def xpathParts (d : Doc) : List Nat → List String
  | [] => [xpathPart d []]
  | i :: rest => xpathParts d rest ++ [xpathPart d (i :: rest).reverse]

/-- Embedding of `generateXPath(element)` (content.js 1129-1156): any non-empty `id`
short-circuits to an id-predicate absolute path; otherwise `/`-joined
steps. -/
def generateXPath (d : Doc) (p : List Nat) : String :=
  match docElem d p with
  | some e =>
    if elemId e ≠ "" then "//*[@id=\"" ++ elemId e ++ "\"]"
    else "/" ++ String.intercalate "/" (xpathParts d p.reverse)
  | none => ""

/-- Embedding of `isElementVisible(element)` (content.js 1367-1375): nonzero rendered
box and none of `visibility:hidden`, `display:none`, `opacity:0`. -/
def isElementVisible (e : ElemData) : Bool :=
  e.rectWidth ≠ 0 && e.rectHeight ≠ 0 &&
  e.styleVisibility ≠ "hidden" && e.styleDisplay ≠ "none" && e.styleOpacity ≠ "0"

/-! ### Candidate data model -/

/-- A locator candidate as pushed by `generateLocators` (content.js 694-848).
`queryType` is the dialect tag: `"css"` (structural-selector), `"xpath"`
(path-query) or `"playwright"` (text-query). -/
structure Locator where
  type : String
  value : String
  reason : String
  queryType : String
  accessibleName : Option String := none
deriving Repr, DecidableEq

/-! ### Stability Analyzer: match counting (content.js 1017-1056) -/

/-- Query execution oracles for the live document: `none` models a thrown
exception (invalid syntax), `some n` a successful run with `n` matches.
`css` stands for `document.querySelectorAll(q).length`, `xpath` for the
`document.evaluate` snapshot length. -/
structure QueryOracle where
  css : String → Option Nat
  xpath : String → Option Nat

/-- Anchored match of `/text="[^"]*"/`: strip `text="`, a run of
non-quote characters and the closing quote, returning the rest. -/
def matchTextPat (cs : List Char) : Option (List Char) :=
  match dropExact "text=\"".data cs with
  | some rest =>
    match rest.dropWhile (fun c => c ≠ '"') with
    | '"' :: r2 => some r2
    | _ => none
  | none => none
where
  dropExact : List Char → List Char → Option (List Char)
    | [], cs => some cs
    | _ :: _, [] => none
    | p :: ps, c :: cs => if c == p then dropExact ps cs else none

/-- Model of `value.replace(/text="[^"]*"/, '')`: drop the first match. -/
def replaceFirstText : List Char → List Char
  | [] => []
  | c :: cs =>
    match matchTextPat (c :: cs) with
    | some rest => rest
    | none => c :: replaceFirstText cs

/-- Anchored match of `/label:has-text\("[^"]*"\)/`. -/
def matchLabelPat (cs : List Char) : Option (List Char) :=
  match matchTextPat.dropExact "label:has-text(\"".data cs with
  | some rest =>
    match rest.dropWhile (fun c => c ≠ '"') with
    | '"' :: ')' :: r2 => some r2
    | _ => none
  | none => none

/-- Model of `value.replace(/label:has-text\("[^"]*"\)/, 'label')`. -/
def replaceFirstLabel : List Char → List Char
  | [] => []
  | c :: cs =>
    match matchLabelPat (c :: cs) with
    | some rest => "label".data ++ rest
    | none => c :: replaceFirstLabel cs

/-- The text-query stripping in `getMatchCount` (content.js 1041-1044):
drop the quoted-text operand, rewrite a `label:has-text(...)` wrapper to
`label`, then remove every double quote. -/
def stripPlaywright (s : String) : String :=
  ⟨(replaceFirstLabel (replaceFirstText s.data)).filter (fun c => c ≠ '"')⟩

/-- Embedding of `getMatchCount(locator)` (content.js 1017-1056).  Structural and
path-query dialects degrade to 0 on failure; the text-query dialect
re-executes its stripped structural remainder and degrades to 1 when that
count is zero or the re-execution fails. -/
def getMatchCount (o : QueryOracle) (loc : Locator) : Nat :=
  if loc.queryType == "xpath" then
    match o.xpath loc.value with
    | some n => n
    | none => 0
  else if loc.queryType == "css" then
    match o.css loc.value with
    | some n => n
    | none => 0
  else if loc.queryType == "playwright" then
    match o.css (stripPlaywright loc.value) with
    | some n => if n = 0 then 1 else n
    | none => 1
  else 0

/-! ### Candidate Generator (content.js 694-848) -/

/-- Embedding of `getStableText(element)` (content.js 1075-1079): trimmed text content,
whitespace-collapsed, truncated to 100 characters; `null` when empty. -/
def getStableText (node : DomNode) : Option String :=
  let t := trimStr (nodeTextContent node)
  if t = "" then none
  else some ⟨(collapseWs t).data.take 100⟩

/-- Candidate 1: explicit test identifier, first truthy of the five data
attributes (content.js 697-711). -/
def locTestId (ed : ElemData) : List Locator :=
  match firstTruthyAttr ed ["data-testid", "data-test-id", "data-test", "data-qa", "data-cy"] with
  | some t => [⟨"test-id", "[data-testid=\"" ++ t ++ "\"]", "Explicit test identifier", "css", none⟩]
  | none => []
where
  firstTruthyAttr (ed : ElemData) : List String → Option String
    | [] => none
    | a :: rest =>
      match getAttr ed a with
      | some v => if v ≠ "" then some v else firstTruthyAttr ed rest
      | none => firstTruthyAttr ed rest

/-- Candidate 2: ARIA role with accessible name (content.js 713-724). -/
def locRole (role accName : Option String) : List Locator :=
  if jsTruthy role && jsTruthy accName then
    [⟨"role", "role=\"" ++ role.getD "" ++ "\"", "ARIA role with accessible name", "css", accName⟩]
  else []

/-- Candidate 3: `aria-label` attribute (content.js 726-735). -/
def locAriaLabel (ed : ElemData) : List Locator :=
  match getAttr ed "aria-label" with
  | some al =>
    if al ≠ "" then [⟨"aria-label", "[aria-label=\"" ++ al ++ "\"]", "Accessibility label", "css", none⟩]
    else []
  | none => []

/-- Candidate 4: bare `role` attribute when no accessible name exists
(content.js 737-746). -/
def locRoleAttr (ed : ElemData) (accName : Option String) : List Locator :=
  match getAttr ed "role" with
  | some ar =>
    if ar ≠ "" && !jsTruthy accName then
      [⟨"role-attr", "[role=\"" ++ ar ++ "\"]", "ARIA role attribute", "css", none⟩]
    else []
  | none => []

/-- Candidate 5: associated form label (content.js 748-760). -/
def locLabel (d : Doc) (ed : ElemData) : List Locator :=
  if elemId ed ≠ "" then
    match queryLabelFor d (elemId ed) with
    | some l =>
      [⟨"label", "label:has-text(\"" ++ trimStr (nodeTextContent l) ++ "\")", "Form label association", "playwright", none⟩]
    | none => []
  else []

/-- Candidate 6: stable visible text (content.js 762-771). -/
def locText (node : DomNode) : List Locator :=
  match getStableText node with
  | some t =>
    if t.length < 100 then [⟨"text", "text=\"" ++ t ++ "\"", "Visible text content", "playwright", none⟩]
    else []
  | none => []

/-- Candidate 7: `placeholder` attribute (content.js 773-782). -/
def locPlaceholder (ed : ElemData) : List Locator :=
  match getAttr ed "placeholder" with
  | some v =>
    if v ≠ "" then [⟨"placeholder", "[placeholder=\"" ++ v ++ "\"]", "Input placeholder", "css", none⟩]
    else []
  | none => []

/-- Candidate 8: image `alt` text (content.js 784-793). -/
def locAlt (ed : ElemData) : List Locator :=
  match getAttr ed "alt" with
  | some v =>
    if v ≠ "" then [⟨"alt", "img[alt=\"" ++ v ++ "\"]", "Image alt text", "css", none⟩]
    else []
  | none => []

/-- Candidate 9: `title` attribute (content.js 795-804). -/
def locTitle (ed : ElemData) : List Locator :=
  match getAttr ed "title" with
  | some v =>
    if v ≠ "" then [⟨"title", "[title=\"" ++ v ++ "\"]", "Title attribute", "css", none⟩]
    else []
  | none => []

/-- Candidate 10: `name` attribute (content.js 806-815). -/
def locName (ed : ElemData) : List Locator :=
  match getAttr ed "name" with
  | some v =>
    if v ≠ "" then [⟨"name", "[name=\"" ++ v ++ "\"]", "Form element name", "css", none⟩]
    else []
  | none => []

/-- Candidate 11: element id, only when colon-free (content.js 817-825). -/
def locId (ed : ElemData) : List Locator :=
  if elemId ed ≠ "" && !((elemId ed).data.contains ':') then
    [⟨"id", "#" ++ elemId ed, "Element ID", "css", none⟩]
  else []

/-- Candidate 12: synthesized CSS selector, suppressed when empty
(content.js 827-836). -/
def locCss (d : Doc) (p : List Nat) : List Locator :=
  let css := generateCssSelector d p
  if css ≠ "" then [⟨"css", css, "CSS selector", "css", none⟩] else []

/-- Candidate 13: XPath, always pushed (content.js 838-845). -/
def locXPath (d : Doc) (p : List Nat) : List Locator :=
  [⟨"xpath", generateXPath d p, "XPath selector", "xpath", none⟩]

/-- Embedding of `generateLocators(element)` (content.js 694-848): the thirteen
candidate blocks in their fixed enumeration order. -/
def generateLocators (d : Doc) (p : List Nat) : List Locator :=
  match docNode d p with
  | some (.elem ed cs) =>
    let node : DomNode := .elem ed cs
    let accName := accNameOf d ed node
    locTestId ed ++ locRole (resolveRole ed) accName ++ locAriaLabel ed ++
      locRoleAttr ed accName ++ locLabel d ed ++ locText node ++ locPlaceholder ed ++
      locAlt ed ++ locTitle ed ++ locName ed ++ locId ed ++ locCss d p ++ locXPath d p
  | _ => []

/-! ### Scoring and Ranking Engine (content.js 942-1068) -/

/-- The `typeBonuses` table of `calculateScore` (content.js 963-977);
unknown kinds contribute 0 (`typeBonuses[locator.type] || 0`). -/
def typeBonus (t : String) : Int :=
  if t == "role" then 90
  else if t == "test-id" then 85
  else if t == "aria-label" then 80
  else if t == "role-attr" then 70
  else if t == "name" then 60
  else if t == "id" then 55
  else if t == "placeholder" then 50
  else if t == "label" then 45
  else if t == "alt" then 40
  else if t == "title" then 35
  else if t == "text" then 20
  else if t == "css" then 15
  else if t == "xpath" then 10
  else 0

/-- The uniqueness adjustment of `calculateScore` (content.js 982-990):
`+10` for a unique match, `-5*(matchCount-1)` for a non-unique one, `-20`
for zero matches. -/
def uniquenessAdjust (matchCount : Nat) : Int :=
  if matchCount = 1 then 10
  else if 1 < matchCount then -(((matchCount : Int) - 1) * 5)
  else -20

/-- Embedding of `calculateScore(locator, element)` (content.js 959-1010): base 50, the
type bonus, the uniqueness adjustment, `-30` for dynamic-looking values,
`+5` for a visible element, `+5`/`-10` for short/long values, clamped to
`[0, 100]`.  The result is an integer throughout. -/
def calculateScore (o : QueryOracle) (loc : Locator) (ed : ElemData) : Int :=
  let score : Int := 50 + typeBonus loc.type
  let score := score + uniquenessAdjust (getMatchCount o loc)
  let score := if hasDynamicParts loc.value then score - 30 else score
  let score := if isElementVisible ed then score + 5 else score
  let score :=
    if loc.value.length < 30 then score + 5
    else if 150 < loc.value.length then score - 10
    else score
  max 0 (min 100 score)

/-- Embedding of `getStabilityLevel(score)` (content.js 1063-1068). -/
def getStabilityLevel (score : Int) : String :=
  if 80 ≤ score then "Excellent"
  else if 60 ≤ score then "Good"
  else if 40 ≤ score then "Fair"
  else "Poor"

/-- A candidate with its score and stability tier (the spread object built
in `rankLocators`; `Math.round` is the identity on the integral score). -/
structure ScoredLocator extends Locator where
  score : Int
  stability : String
deriving Repr, DecidableEq

/-- The `map` half of `rankLocators` (content.js 943-949). -/
def scoreLocators (o : QueryOracle) (locs : List Locator) (ed : ElemData) : List ScoredLocator :=
  locs.map (fun loc =>
    { toLocator := loc
      score := calculateScore o loc ed
      stability := getStabilityLevel (calculateScore o loc ed) })

/-- Embedding of `rankLocators(locators, element)` (content.js 942-951): score each
candidate, then stably sort descending by score (`Array.prototype.sort` is
stable per ECMAScript 2019; `mergeSort` realizes exactly that). -/
def rankLocators (o : QueryOracle) (locs : List Locator) (ed : ElemData) : List ScoredLocator :=
  (scoreLocators o locs ed).mergeSort (fun a b => decide (b.score ≤ a.score))

/-- The slice of the `buildLocatorInfo` report (content.js 667-687) the
claims speak about.  The remaining fields (position, size, DOM snippet,
ARIA ancestry, attribute map) are rendering data with no claim attached
and are omitted. -/
structure ElementReport where
  tag : String
  isVisible : Bool
  locators : List ScoredLocator
deriving Repr, DecidableEq

/-- Embedding of `buildLocatorInfo(element)` (content.js 667-687): generate, rank and
package.  A non-element reference yields `none` (the invalid-argument
condition). -/
def buildLocatorInfo (o : QueryOracle) (d : Doc) (p : List Nat) : Option ElementReport :=
  match docElem d p with
  | some ed =>
    some { tag := lowerAscii ed.tagName
           isVisible := isElementVisible ed
           locators := rankLocators o (generateLocators d p) ed }
  | none => none

/-! ### Framework Code Emitter (content.js 1436-1564) -/

/-- Anchored match of `pre([^"]+)"`, returning the capture. -/
def captureAt (pre : List Char) (cs : List Char) : Option (List Char) :=
  match matchTextPat.dropExact pre cs with
  | some rest =>
    match rest.span (fun c => c ≠ '"') with
    | (cap, '"' :: _) => if cap.isEmpty then none else some cap
    | _ => none
  | none => none

/-- First (leftmost) match of `pre([^"]+)"` in the list. -/
def scanCapture (pre : List Char) : List Char → Option (List Char)
  | [] => none
  | c :: cs =>
    match captureAt pre (c :: cs) with
    | some cap => some cap
    | none => scanCapture pre cs

/-- Model of `value.match(/pre([^"]+)"/)?.[1]` for a literal prefix `pre` ending in
a double quote. -/
def extractQuoted (pre : String) (s : String) : Option String :=
  (scanCapture pre.data s.data).map (fun l => ⟨l⟩)

/-- Anchored match of `label:has-text\("([^"]+)"\)`, returning the capture. -/
def labelCaptureAt (cs : List Char) : Option (List Char) :=
  match matchTextPat.dropExact "label:has-text(\"".data cs with
  | some rest =>
    match rest.span (fun c => c ≠ '"') with
    | (cap, '"' :: ')' :: _) => if cap.isEmpty then none else some cap
    | _ => none
  | none => none

/-- First match of `label:has-text\("([^"]+)"\)` in the list. -/
def scanLabelCapture : List Char → Option (List Char)
  | [] => none
  | c :: cs =>
    match labelCaptureAt (c :: cs) with
    | some cap => some cap
    | none => scanLabelCapture cs

/-- Model of `value.match(/label:has-text\("([^"]+)"\)/)?.[1]`. -/
def extractLabelText (s : String) : Option String :=
  (scanLabelCapture s.data).map (fun l => ⟨l⟩)

/-- Model of `value.replace('#', '')`: drop the first occurrence of a character. -/
def removeFirstChar (ch : Char) : List Char → List Char
  | [] => []
  | c :: cs => if c == ch then cs else c :: removeFirstChar ch cs

/-- Model of `value.replace('#', '')` on strings. -/
def replaceHash (s : String) : String := ⟨removeFirstChar '#' s.data⟩

/-- Embedding of `convertToPlaywright(locator)` (content.js 1452-1508). -/
def convertToPlaywright (loc : Locator) : String :=
  if loc.type == "test-id" then
    match extractQuoted "data-testid=\"" loc.value with
    | some t => "page.getByTestId('" ++ t ++ "')"
    | none => loc.value
  else if loc.type == "role" then
    match extractQuoted "role=\"" loc.value with
    | some r =>
      if jsTruthy loc.accessibleName then
        "page.getByRole('" ++ r ++ "', \x7b name: '" ++ loc.accessibleName.getD "" ++ "' \x7d)"
      else loc.value
    | none => loc.value
  else if loc.type == "role-attr" then
    match extractQuoted "role=\"" loc.value with
    | some r => "page.getByRole('" ++ r ++ "')"
    | none => loc.value
  else if loc.type == "aria-label" then
    match extractQuoted "aria-label=\"" loc.value with
    | some a => "page.getByLabel('" ++ a ++ "')"
    | none => loc.value
  else if loc.type == "text" then
    match extractQuoted "text=\"" loc.value with
    | some t => "page.getByText('" ++ t ++ "')"
    | none => loc.value
  else if loc.type == "placeholder" then
    match extractQuoted "placeholder=\"" loc.value with
    | some t => "page.getByPlaceholder('" ++ t ++ "')"
    | none => loc.value
  else if loc.type == "alt" then
    match extractQuoted "alt=\"" loc.value with
    | some t => "page.getByAltText('" ++ t ++ "')"
    | none => loc.value
  else if loc.type == "label" then
    match extractLabelText loc.value with
    | some t => "page.getByLabel('" ++ t ++ "')"
    | none => loc.value
  else if loc.type == "id" then
    "page.locator('#" ++ replaceHash loc.value ++ "')"
  else if loc.type == "name" then
    match extractQuoted "name=\"" loc.value with
    | some n => "page.getByRole('textbox', \x7b name: '" ++ n ++ "' \x7d)"
    | none => "page.locator('" ++ loc.value ++ "')"
  else if loc.type == "css" then
    "page.locator('" ++ loc.value ++ "')"
  else if loc.type == "xpath" then
    "page.locator('xpath=" ++ loc.value ++ "')"
  else
    "page.locator('" ++ loc.value ++ "')"

/-- Embedding of `convertToSelenium(locator)` (content.js 1515-1564). -/
def convertToSelenium (loc : Locator) : String :=
  if loc.type == "id" then
    "driver.find_element(By.ID, '" ++ replaceHash loc.value ++ "')"
  else if loc.type == "css" then
    "driver.find_element(By.CSS_SELECTOR, '" ++ loc.value ++ "')"
  else if loc.type == "xpath" then
    "driver.find_element(By.XPATH, '" ++ loc.value ++ "')"
  else if loc.type == "test-id" then
    match extractQuoted "data-testid=\"" loc.value with
    | some t => "driver.find_element(By.CSS_SELECTOR, '[data-testid=\"" ++ t ++ "\"]')"
    | none => loc.value
  else if loc.type == "name" then
    match extractQuoted "name=\"" loc.value with
    | some n => "driver.find_element(By.NAME, '" ++ n ++ "')"
    | none => loc.value
  else if loc.type == "aria-label" then
    match extractQuoted "aria-label=\"" loc.value with
    | some a => "driver.find_element(By.CSS_SELECTOR, '[aria-label=\"" ++ a ++ "\"]')"
    | none => loc.value
  else if loc.type == "placeholder" then
    match extractQuoted "placeholder=\"" loc.value with
    | some t => "driver.find_element(By.CSS_SELECTOR, '[placeholder=\"" ++ t ++ "\"]')"
    | none => loc.value
  else if loc.type == "label" then
    match extractLabelText loc.value with
    | some t => "driver.find_element(By.XPATH, \"//label[contains(text(), '" ++ t ++ "')]/..//*[@name]\")"
    | none => loc.value
  else if loc.type == "text" then
    match extractQuoted "text=\"" loc.value with
    | some t => "driver.find_element(By.XPATH, \"//*[contains(text(), '" ++ t ++ "')]\")"
    | none => loc.value
  else if loc.type == "alt" then
    match extractQuoted "alt=\"" loc.value with
    | some t => "driver.find_element(By.CSS_SELECTOR, 'img[alt=\"" ++ t ++ "\"]')"
    | none => loc.value
  else if loc.type == "role" then
    match extractQuoted "role=\"" loc.value with
    | some r => "driver.find_element(By.CSS_SELECTOR, '[role=\"" ++ r ++ "\"]')"
    | none => loc.value
  else
    "driver.find_element(By.CSS_SELECTOR, '" ++ loc.value ++ "')"

/-! ### Shared helper lemmas -/

/-- A `docElem` answer comes from an element node at that path. -/
theorem docElem_some_iff {d : Doc} {p : List Nat} {ed : ElemData}
    (h : docElem d p = some ed) : ∃ cs, docNode d p = some (.elem ed cs) := by
  unfold docElem at h
  rcases hd : docNode d p with _ | n
  · rw [hd] at h; cases h
  · cases n with
    | elem e cs =>
      rw [hd] at h
      simp only [Option.some.injEq] at h
      exact ⟨cs, by rw [← h]⟩
    | text s => rw [hd] at h; cases h

/-! ### Concrete scenarios used by witnesses and counterexamples -/

/-- The unique `<button data-testid="login-btn" aria-label="Sign in">Login</button>`
of the spec's section 8 scenario, rendered visible. -/
def scenarioButton : ElemData :=
  { tagName := "BUTTON"
    attrs := [("data-testid", "login-btn"), ("aria-label", "Sign in")]
    rectWidth := 100
    rectHeight := 30 }

/-- Document `<html><body><button data-testid="login-btn" aria-label="Sign in">Login</button></body></html>`. -/
def scenarioDoc : Doc :=
  { root := .elem { tagName := "HTML", attrs := [] }
      [.elem { tagName := "BODY", attrs := [] } [.elem scenarioButton [.text "Login"]]] }

/-- Path of the scenario button below the document root. -/
def scenarioPath : List Nat := [0, 0]

/-- An oracle for `scenarioDoc` granting the claim C6 premise that the
test-identifier and role candidates both count one match (and counting one
match for the other well-formed queries; the empty string throws). -/
def scenarioOracle : QueryOracle :=
  { css := fun s =>
      if s == "[data-testid=\"login-btn\"]" || s == "role=\"button\"" ||
         s == "[aria-label=\"Sign in\"]" || s == "button" then some 1 else none
    xpath := fun s => if s == "/html/body/button" then some 1 else none }

/-- An oracle on which every query execution throws. -/
def failingOracle : QueryOracle := { css := fun _ => none, xpath := fun _ => none }

/-! ### C1 -/

/-- C1: for every element, the report's locator list is non-empty, and the
last enumeration entry of `generateLocators` is always the path-query
(XPath) candidate, regardless of the element's attributes. -/
theorem claim1_report_nonempty_xpath_last (o : QueryOracle) (d : Doc) (p : List Nat)
    (ed : ElemData) (h : docElem d p = some ed) :
    (∃ rep, buildLocatorInfo o d p = some rep ∧ rep.locators ≠ []) ∧
    (∃ lc, (generateLocators d p).getLast? = some lc ∧
      lc.type = "xpath" ∧ lc.queryType = "xpath") := by
  obtain ⟨cs, hn⟩ := docElem_some_iff h
  have hlast : (generateLocators d p).getLast? =
      some ⟨"xpath", generateXPath d p, "XPath selector", "xpath", none⟩ := by
    simp [generateLocators, hn, locXPath]
  have hgenne : generateLocators d p ≠ [] := by
    intro hemp
    rw [hemp] at hlast
    cases hlast
  have hlen : (rankLocators o (generateLocators d p) ed).length =
      (generateLocators d p).length := by
    simp [rankLocators, scoreLocators]
  refine ⟨⟨{ tag := lowerAscii ed.tagName, isVisible := isElementVisible ed,
             locators := rankLocators o (generateLocators d p) ed }, ?_, ?_⟩,
          ⟨_, hlast, rfl, rfl⟩⟩
  · unfold buildLocatorInfo
    rw [h]
  · show rankLocators o (generateLocators d p) ed ≠ []
    apply List.length_pos.mp
    rw [hlen]
    exact List.length_pos.mpr hgenne

/-- Witness for C1 at the concrete scenario document. -/
theorem claim1_witness :
    (∃ rep, buildLocatorInfo scenarioOracle scenarioDoc scenarioPath = some rep ∧
      rep.locators ≠ []) ∧
    (∃ lc, (generateLocators scenarioDoc scenarioPath).getLast? = some lc ∧
      lc.type = "xpath" ∧ lc.queryType = "xpath") :=
  claim1_report_nonempty_xpath_last scenarioOracle scenarioDoc scenarioPath scenarioButton rfl

/-! ### C2 -/

/-- C2: every computed score is an integer in `[0, 100]` (the model scores
in `ℤ` and the final clamp bounds it), and the stability tier is the
stated pure threshold function of the score. -/
theorem claim2_score_bounds_tier (o : QueryOracle) (loc : Locator) (ed : ElemData) :
    0 ≤ calculateScore o loc ed ∧ calculateScore o loc ed ≤ 100 ∧
    ∀ s : Int, getStabilityLevel s =
      if 80 ≤ s then "Excellent"
      else if 60 ≤ s then "Good"
      else if 40 ≤ s then "Fair"
      else "Poor" := by
  refine ⟨?_, ?_, fun s => rfl⟩
  · unfold calculateScore
    exact le_max_left 0 _
  · unfold calculateScore
    exact max_le (by norm_num) (min_le_left _ _)

/-- Witness for C2 at a concrete candidate and element. -/
theorem claim2_witness :
    0 ≤ calculateScore failingOracle
        ⟨"css", "div > button", "CSS selector", "css", none⟩ scenarioButton ∧
    calculateScore failingOracle
        ⟨"css", "div > button", "CSS selector", "css", none⟩ scenarioButton ≤ 100 ∧
    ∀ s : Int, getStabilityLevel s =
      if 80 ≤ s then "Excellent"
      else if 60 ≤ s then "Good"
      else if 40 ≤ s then "Fair"
      else "Poor" :=
  claim2_score_bounds_tier failingOracle
    ⟨"css", "div > button", "CSS selector", "css", none⟩ scenarioButton

/-! ### C3 -/

/-- C3: ranking is a stable descending sort by score — the ranked list is
a permutation of the scored list, pairwise descending in score, and any
two equal-scored candidates keep their generation order (adjacent-pair
sublist preservation, the standard statement of stability). -/
theorem claim3_ranking_stable_descending (o : QueryOracle) (ed : ElemData)
    (locs : List Locator) :
    List.Perm (rankLocators o locs ed) (scoreLocators o locs ed) ∧
    List.Pairwise (fun a b => b.score ≤ a.score) (rankLocators o locs ed) ∧
    ∀ a b : ScoredLocator, a.score = b.score →
      List.Sublist [a, b] (scoreLocators o locs ed) →
      List.Sublist [a, b] (rankLocators o locs ed) := by
  have trans : ∀ a b c : ScoredLocator,
      decide (b.score ≤ a.score) = true → decide (c.score ≤ b.score) = true →
      decide (c.score ≤ a.score) = true := by
    intro a b c h1 h2
    exact decide_eq_true (le_trans (of_decide_eq_true h2) (of_decide_eq_true h1))
  have total : ∀ a b : ScoredLocator,
      (decide (b.score ≤ a.score) || decide (a.score ≤ b.score)) = true := by
    intro a b
    rcases le_total b.score a.score with hle | hle
    · simp [decide_eq_true hle]
    · simp [decide_eq_true hle]
  unfold rankLocators
  refine ⟨List.mergeSort_perm _ _, ?_, ?_⟩
  · exact (List.sorted_mergeSort trans total _).imp (fun hab => of_decide_eq_true hab)
  · intro a b hab hsub
    exact List.pair_sublist_mergeSort trans total
      (decide_eq_true (le_of_eq hab.symm)) hsub

/-- Witness for C3 at the scenario candidate list. -/
theorem claim3_witness :
    List.Perm
      (rankLocators scenarioOracle (generateLocators scenarioDoc scenarioPath) scenarioButton)
      (scoreLocators scenarioOracle (generateLocators scenarioDoc scenarioPath) scenarioButton) ∧
    List.Pairwise (fun a b => b.score ≤ a.score)
      (rankLocators scenarioOracle (generateLocators scenarioDoc scenarioPath) scenarioButton) ∧
    ∀ a b : ScoredLocator, a.score = b.score →
      List.Sublist [a, b]
        (scoreLocators scenarioOracle (generateLocators scenarioDoc scenarioPath) scenarioButton) →
      List.Sublist [a, b]
        (rankLocators scenarioOracle (generateLocators scenarioDoc scenarioPath) scenarioButton) :=
  claim3_ranking_stable_descending scenarioOracle scenarioButton
    (generateLocators scenarioDoc scenarioPath)

/-! ### C5 -/

/-- C5: `getMatchCount` is total (it never throws: it is a function into
`ℕ`) and degrades per dialect — a failing structural or path query yields
0, a successful one its count; a text query re-executes its stripped
structural remainder and yields that count, or 1 when the count is zero or
the re-execution fails. -/
theorem claim5_matchCount_degradation (o : QueryOracle) (loc : Locator) :
    (loc.queryType = "css" → o.css loc.value = none → getMatchCount o loc = 0) ∧
    (loc.queryType = "css" → ∀ n, o.css loc.value = some n → getMatchCount o loc = n) ∧
    (loc.queryType = "xpath" → o.xpath loc.value = none → getMatchCount o loc = 0) ∧
    (loc.queryType = "xpath" → ∀ n, o.xpath loc.value = some n → getMatchCount o loc = n) ∧
    (loc.queryType = "playwright" → o.css (stripPlaywright loc.value) = none →
      getMatchCount o loc = 1) ∧
    (loc.queryType = "playwright" → ∀ n, o.css (stripPlaywright loc.value) = some n →
      getMatchCount o loc = if n = 0 then 1 else n) := by
  refine ⟨?_, ?_, ?_, ?_, ?_, ?_⟩ <;> intro h
  · intro hO; simp [getMatchCount, h, hO]
  · intro n hO; simp [getMatchCount, h, hO]
  · intro hO; simp [getMatchCount, h, hO]
  · intro n hO; simp [getMatchCount, h, hO]
  · intro hO; simp [getMatchCount, h, hO]
  · intro n hO; simp [getMatchCount, h, hO]

/-- Witness for C5: on an all-throwing oracle a structural candidate
counts 0 and a text candidate counts 1. -/
theorem claim5_witness :
    getMatchCount failingOracle ⟨"css", "div > button", "CSS selector", "css", none⟩ = 0 ∧
    getMatchCount failingOracle ⟨"text", "text=\"Hi\"", "Visible text content", "playwright", none⟩ = 1 :=
  ⟨(claim5_matchCount_degradation failingOracle _).1 rfl rfl,
   (claim5_matchCount_degradation failingOracle _).2.2.2.2.1 rfl rfl⟩

/-! ### C7 -/

/-- Document `<html><body><div id="a:b"></div></body></html>` with a colon-bearing id. -/
def colonDoc : Doc :=
  { root := .elem { tagName := "HTML", attrs := [] }
      [.elem { tagName := "BODY", attrs := [] }
        [.elem { tagName := "DIV", attrs := [("id", "a:b")] } []]] }

/-- C7 counterexample: `generateCssSelector` short-circuits to `#id` for a
colon-containing id as well — the claimed ancestor walk (which would yield
`div`) is not taken. -/
theorem claim7_counterexample :
    (elemId { tagName := "DIV", attrs := [("id", "a:b")] }).data.contains ':' = true ∧
    generateCssSelector colonDoc [0, 0] = "#a:b" ∧
    String.intercalate " > " (cssWalk colonDoc [0, 0].reverse 0) = "div" ∧
    generateCssSelector colonDoc [0, 0] ≠
      String.intercalate " > " (cssWalk colonDoc [0, 0].reverse 0) := by
  decide

/-- C7 amended: the structural-selector synthesizer returns `#id`
immediately for every element with a non-empty id — colon-containing ids
included (the colon check exists only in the separate id-candidate gate) —
and performs the bounded ancestor walk only when the id is empty. -/
theorem claim7_css_id_shortcircuit (d : Doc) (p : List Nat) (ed : ElemData)
    (h : docElem d p = some ed) :
    (elemId ed ≠ "" → generateCssSelector d p = "#" ++ elemId ed) ∧
    (elemId ed = "" →
      generateCssSelector d p = String.intercalate " > " (cssWalk d p.reverse 0)) := by
  constructor <;> intro hid <;> unfold generateCssSelector <;> rw [h] <;> simp [hid]

/-- Witness for C7's amended claim at a plain id. -/
theorem claim7_witness :
    generateCssSelector colonDoc [0, 0] = "#" ++ elemId { tagName := "DIV", attrs := [("id", "a:b")] } :=
  (claim7_css_id_shortcircuit colonDoc [0, 0] { tagName := "DIV", attrs := [("id", "a:b")] } rfl).1
    (by decide)

/-! ### C9 -/

/-- C9 counterexample: the `title` kind falls through to the generic
`page.locator`/`By.CSS_SELECTOR` default in both emitters (its output is
identical to an unmapped kind's), and the `role-attr` kind does so in the
Selenium emitter. -/
theorem claim9_counterexample :
    convertToPlaywright ⟨"title", "[title=\"Hi\"]", "Title attribute", "css", none⟩ =
      convertToPlaywright ⟨"unmapped", "[title=\"Hi\"]", "Title attribute", "css", none⟩ ∧
    convertToPlaywright ⟨"title", "[title=\"Hi\"]", "Title attribute", "css", none⟩ =
      "page.locator('[title=\"Hi\"]')" ∧
    convertToSelenium ⟨"title", "[title=\"Hi\"]", "Title attribute", "css", none⟩ =
      convertToSelenium ⟨"unmapped", "[title=\"Hi\"]", "Title attribute", "css", none⟩ ∧
    convertToSelenium ⟨"role-attr", "[role=\"menu\"]", "ARIA role attribute", "css", none⟩ =
      convertToSelenium ⟨"unmapped", "[role=\"menu\"]", "ARIA role attribute", "css", none⟩ := by
  decide

/-- C9 amended: the emitters are pure functions (modelled as such), and
every kind except `title` (Playwright) and except `title`/`role-attr`
(Selenium) has an explicit template extracting the literal embedded in the
4.4 expression syntax; the exhibited outputs verify each template at a
representative candidate. -/
theorem claim9_templates :
    convertToPlaywright ⟨"test-id", "[data-testid=\"save-btn\"]", "Explicit test identifier", "css", none⟩ =
      "page.getByTestId('save-btn')" ∧
    convertToPlaywright ⟨"role", "role=\"button\"", "ARIA role with accessible name", "css", some "Save"⟩ =
      "page.getByRole('button', \x7b name: 'Save' \x7d)" ∧
    convertToPlaywright ⟨"role-attr", "[role=\"menu\"]", "ARIA role attribute", "css", none⟩ =
      "page.getByRole('menu')" ∧
    convertToPlaywright ⟨"aria-label", "[aria-label=\"Close\"]", "Accessibility label", "css", none⟩ =
      "page.getByLabel('Close')" ∧
    convertToPlaywright ⟨"label", "label:has-text(\"User name\")", "Form label association", "playwright", none⟩ =
      "page.getByLabel('User name')" ∧
    convertToPlaywright ⟨"text", "text=\"Login\"", "Visible text content", "playwright", none⟩ =
      "page.getByText('Login')" ∧
    convertToPlaywright ⟨"placeholder", "[placeholder=\"Email\"]", "Input placeholder", "css", none⟩ =
      "page.getByPlaceholder('Email')" ∧
    convertToPlaywright ⟨"alt", "img[alt=\"Logo\"]", "Image alt text", "css", none⟩ =
      "page.getByAltText('Logo')" ∧
    convertToPlaywright ⟨"name", "[name=\"q\"]", "Form element name", "css", none⟩ =
      "page.getByRole('textbox', \x7b name: 'q' \x7d)" ∧
    convertToPlaywright ⟨"id", "#main", "Element ID", "css", none⟩ =
      "page.locator('#main')" ∧
    convertToPlaywright ⟨"css", "div.app > button", "CSS selector", "css", none⟩ =
      "page.locator('div.app > button')" ∧
    convertToPlaywright ⟨"xpath", "/html/body/div", "XPath selector", "xpath", none⟩ =
      "page.locator('xpath=/html/body/div')" ∧
    convertToSelenium ⟨"id", "#main", "Element ID", "css", none⟩ =
      "driver.find_element(By.ID, 'main')" ∧
    convertToSelenium ⟨"css", "div.app > button", "CSS selector", "css", none⟩ =
      "driver.find_element(By.CSS_SELECTOR, 'div.app > button')" ∧
    convertToSelenium ⟨"xpath", "/html/body/div", "XPath selector", "xpath", none⟩ =
      "driver.find_element(By.XPATH, '/html/body/div')" ∧
    convertToSelenium ⟨"test-id", "[data-testid=\"save-btn\"]", "Explicit test identifier", "css", none⟩ =
      "driver.find_element(By.CSS_SELECTOR, '[data-testid=\"save-btn\"]')" ∧
    convertToSelenium ⟨"name", "[name=\"q\"]", "Form element name", "css", none⟩ =
      "driver.find_element(By.NAME, 'q')" ∧
    convertToSelenium ⟨"aria-label", "[aria-label=\"Close\"]", "Accessibility label", "css", none⟩ =
      "driver.find_element(By.CSS_SELECTOR, '[aria-label=\"Close\"]')" ∧
    convertToSelenium ⟨"placeholder", "[placeholder=\"Email\"]", "Input placeholder", "css", none⟩ =
      "driver.find_element(By.CSS_SELECTOR, '[placeholder=\"Email\"]')" ∧
    convertToSelenium ⟨"label", "label:has-text(\"User name\")", "Form label association", "playwright", none⟩ =
      "driver.find_element(By.XPATH, \"//label[contains(text(), 'User name')]/..//*[@name]\")" ∧
    convertToSelenium ⟨"text", "text=\"Login\"", "Visible text content", "playwright", none⟩ =
      "driver.find_element(By.XPATH, \"//*[contains(text(), 'Login')]\")" ∧
    convertToSelenium ⟨"alt", "img[alt=\"Logo\"]", "Image alt text", "css", none⟩ =
      "driver.find_element(By.CSS_SELECTOR, 'img[alt=\"Logo\"]')" ∧
    convertToSelenium ⟨"role", "role=\"button\"", "ARIA role with accessible name", "css", some "Save"⟩ =
      "driver.find_element(By.CSS_SELECTOR, '[role=\"button\"]')" := by
  decide

/-! ### C10 -/

/-- The candidate `generateLocators` pushes for a role with accessible
name. -/
def roleCandidate (r an : String) : Locator :=
  ⟨"role", "role=\"" ++ r ++ "\"", "ARIA role with accessible name", "css", some an⟩

/-- C10: every generated role candidate carries dialect `css` and the
expression `role="X"`; since that string is not a valid CSS selector,
`document.querySelectorAll` throws on it (the oracle hypothesis `hcss`),
so the candidate's match count is 0 and its score takes the `-20`
zero-match penalty, never the `+10` uniqueness bonus. -/
theorem claim10_role_candidate_zero_matches (o : QueryOracle) (d : Doc) (p : List Nat)
    (ed : ElemData) (cs : List DomNode) (r an : String)
    (hn : docNode d p = some (.elem ed cs))
    (hr : resolveRole ed = some r) (hrne : r ≠ "")
    (han : accNameOf d ed (.elem ed cs) = some an) (hanne : an ≠ "")
    (hcss : o.css ("role=\"" ++ r ++ "\"") = none) :
    roleCandidate r an ∈ generateLocators d p ∧
    (roleCandidate r an).queryType = "css" ∧
    getMatchCount o (roleCandidate r an) = 0 ∧
    uniquenessAdjust (getMatchCount o (roleCandidate r an)) = -20 := by
  have hmc : getMatchCount o (roleCandidate r an) = 0 := by
    simp [getMatchCount, roleCandidate, hcss]
  have hblock : locRole (resolveRole ed) (accNameOf d ed (DomNode.elem ed cs)) =
      [roleCandidate r an] := by
    rw [hr, han]
    simp [locRole, jsTruthy, hrne, hanne, roleCandidate]
  refine ⟨?_, rfl, hmc, by rw [hmc]; decide⟩
  simp only [generateLocators, hn]
  rw [hblock]
  simp [List.mem_append]

/-- Witness for C10 at the scenario button with a CSS engine that rejects
`role="button"`. -/
theorem claim10_witness :
    roleCandidate "button" "Sign in" ∈ generateLocators scenarioDoc scenarioPath ∧
    (roleCandidate "button" "Sign in").queryType = "css" ∧
    getMatchCount failingOracle (roleCandidate "button" "Sign in") = 0 ∧
    uniquenessAdjust (getMatchCount failingOracle (roleCandidate "button" "Sign in")) = -20 :=
  claim10_role_candidate_zero_matches failingOracle scenarioDoc scenarioPath scenarioButton
    [DomNode.text "Login"] "button" "Sign in" rfl rfl (by decide) rfl (by decide) rfl

/-! ### C4 -/

/-- Button `<button aria-label="">Click me</button>` inside a body: carries the
`aria-label` attribute with an empty value. -/
def emptyAriaButton : ElemData := { tagName := "BUTTON", attrs := [("aria-label", "")] }

/-- Document for the C4 counterexample. -/
def emptyAriaDoc : Doc :=
  { root := .elem { tagName := "HTML", attrs := [] }
      [.elem { tagName := "BODY", attrs := [] } [.elem emptyAriaButton [.text "Click me"]]] }

/-- C4 counterexample: an element carrying `aria-label=""` does NOT
resolve its accessible name to that attribute value — the empty string is
falsy, so resolution falls through to the button-text step. -/
theorem claim4_counterexample :
    getAttr emptyAriaButton "aria-label" = some "" ∧
    getAccessibleName emptyAriaDoc [0, 0] = some "Click me" ∧
    getAccessibleName emptyAriaDoc [0, 0] ≠ some "" := by
  decide

/-- C4 amended: accessible-name resolution follows the fixed short-circuit
order, with each step firing only on a truthy (non-empty) value: a
NON-EMPTY `aria-label` always wins regardless of text content; else a
non-empty `aria-labelledby` whose id resolves yields the referent's
trimmed text; else the tag-specific steps (button text, input
label[for]/placeholder, anchor text, image alt, else null). -/
theorem claim4_accessible_name_order (d : Doc) (p : List Nat) (ed : ElemData)
    (cs : List DomNode) (hn : docNode d p = some (.elem ed cs)) :
    (∀ s, getAttr ed "aria-label" = some s → s ≠ "" → getAccessibleName d p = some s) ∧
    (jsTruthy (getAttr ed "aria-label") = false →
      ∀ t ln, getAttr ed "aria-labelledby" = some t → t ≠ "" → getById d t = some ln →
        getAccessibleName d p = some (trimStr (nodeTextContent ln))) ∧
    (jsTruthy (getAttr ed "aria-label") = false →
      (∀ t, getAttr ed "aria-labelledby" = some t → t = "" ∨ getById d t = none) →
      getAccessibleName d p = accNameTagSteps d ed (.elem ed cs)) ∧
    (ed.tagName = "BUTTON" → trimStr (nodeTextContent (DomNode.elem ed cs)) ≠ "" →
      accNameTagSteps d ed (.elem ed cs) =
        some (trimStr (nodeTextContent (DomNode.elem ed cs)))) ∧
    (ed.tagName = "INPUT" → ∀ l, elemId ed ≠ "" → queryLabelFor d (elemId ed) = some l →
      accNameTagSteps d ed (.elem ed cs) = some (trimStr (nodeTextContent l))) ∧
    (ed.tagName = "INPUT" → (elemId ed = "" ∨ queryLabelFor d (elemId ed) = none) →
      ∀ ph, getAttr ed "placeholder" = some ph → ph ≠ "" →
        accNameTagSteps d ed (.elem ed cs) = some ph) ∧
    (ed.tagName = "A" → trimStr (nodeTextContent (DomNode.elem ed cs)) ≠ "" →
      accNameTagSteps d ed (.elem ed cs) =
        some (trimStr (nodeTextContent (DomNode.elem ed cs)))) ∧
    (ed.tagName = "IMG" → ∀ a, getAttr ed "alt" = some a → a ≠ "" →
      accNameTagSteps d ed (.elem ed cs) = some a) ∧
    (ed.tagName ≠ "BUTTON" → ed.tagName ≠ "INPUT" → ed.tagName ≠ "A" → ed.tagName ≠ "IMG" →
      accNameTagSteps d ed (.elem ed cs) = none) := by
  have hga : getAccessibleName d p = accNameOf d ed (.elem ed cs) := by
    simp [getAccessibleName, hn]
  refine ⟨?_, ?_, ?_, ?_, ?_, ?_, ?_, ?_, ?_⟩
  · intro s hs hne
    rw [hga]
    simp [accNameOf, hs, jsTruthy, hne]
  · intro hfalse t ln ht htne hby
    rw [hga]
    simp [accNameOf, hfalse, ht, htne, hby]
  · intro hfalse hunres
    rw [hga]
    rcases hat : getAttr ed "aria-labelledby" with _ | t
    · simp [accNameOf, hfalse, hat]
    · rcases hunres t hat with hteq | hbad
      · simp [accNameOf, hfalse, hat, hteq]
      · rcases eq_or_ne t "" with hteq | htne
        · simp [accNameOf, hfalse, hat, hteq]
        · simp [accNameOf, hfalse, hat, htne, hbad]
  · intro htag hne
    simp [accNameTagSteps, htag, hne]
  · intro htag l hidne hlab
    simp [accNameTagSteps, htag, hidne, hlab]
  · intro htag hdisj ph hph hphne
    rcases hdisj with hid | hlab
    · simp [accNameTagSteps, htag, hid, hph, hphne]
    · rcases eq_or_ne (elemId ed) "" with hid | hidne
      · simp [accNameTagSteps, htag, hid, hph, hphne]
      · simp [accNameTagSteps, htag, hidne, hlab, hph, hphne]
  · intro htag hne
    simp [accNameTagSteps, htag, hne]
  · intro htag a ha hane
    simp [accNameTagSteps, htag, ha, hane]
  · intro h1 h2 h3 h4
    simp [accNameTagSteps, h1, h2, h3, h4]

/-- Witness for C4: the non-empty `aria-label` step at a concrete button
with conflicting visible text. -/
theorem claim4_witness : getAccessibleName scenarioDoc scenarioPath = some "Sign in" :=
  (claim4_accessible_name_order scenarioDoc scenarioPath scenarioButton
    [DomNode.text "Login"] rfl).1 "Sign in" rfl (by decide)

/-! ### C6 -/

/-- The test-identifier candidate of the scenario button. -/
def testIdCandidate : Locator :=
  ⟨"test-id", "[data-testid=\"login-btn\"]", "Explicit test identifier", "css", none⟩

/-- C6 counterexample: in the scenario, even granting both candidates
matchCount 1, the uniqueness/visibility/brevity bonuses push both the
test-identifier score (50+85+10+5+5) and the role score (50+90+10+5+5)
past the clamp, both scores clamp to 100, and the stable sort keeps the
earlier-generated test-identifier candidate first: the role candidate does
NOT outrank it. -/
theorem claim6_counterexample :
    getMatchCount scenarioOracle testIdCandidate = 1 ∧
    getMatchCount scenarioOracle (roleCandidate "button" "Sign in") = 1 ∧
    ((rankLocators scenarioOracle (generateLocators scenarioDoc scenarioPath)
        scenarioButton).map (fun l => l.type)) =
      ["test-id", "role", "aria-label", "text", "css", "xpath"] ∧
    ¬ (((rankLocators scenarioOracle (generateLocators scenarioDoc scenarioPath)
          scenarioButton).map (fun l => l.type)).indexOf "role" <
       ((rankLocators scenarioOracle (generateLocators scenarioDoc scenarioPath)
          scenarioButton).map (fun l => l.type)).indexOf "test-id") := by
  have hr : rankLocators scenarioOracle (generateLocators scenarioDoc scenarioPath)
        scenarioButton =
      scoreLocators scenarioOracle (generateLocators scenarioDoc scenarioPath)
        scenarioButton := by
    unfold rankLocators
    exact List.mergeSort_of_sorted (by decide)
  refine ⟨by decide, by decide, by rw [hr]; decide, by rw [hr]; decide⟩

/-- C6 amended: for the scenario button both the test-identifier and role
candidates are generated; with matchCount 1 for both, each score clamps to
100, and the ranking places the test-identifier candidate (earlier in
generation order) ahead of the role candidate. -/
theorem claim6_scenario :
    locTestId scenarioButton = [testIdCandidate] ∧
    locRole (resolveRole scenarioButton)
      (accNameOf scenarioDoc scenarioButton (DomNode.elem scenarioButton [DomNode.text "Login"])) =
      [roleCandidate "button" "Sign in"] ∧
    calculateScore scenarioOracle testIdCandidate scenarioButton = 100 ∧
    calculateScore scenarioOracle (roleCandidate "button" "Sign in") scenarioButton = 100 ∧
    ((rankLocators scenarioOracle (generateLocators scenarioDoc scenarioPath)
        scenarioButton).map (fun l => (l.type, l.score))) =
      [("test-id", 100), ("role", 100), ("aria-label", 100),
       ("text", 90), ("css", 85), ("xpath", 80)] := by
  have hr : rankLocators scenarioOracle (generateLocators scenarioDoc scenarioPath)
        scenarioButton =
      scoreLocators scenarioOracle (generateLocators scenarioDoc scenarioPath)
        scenarioButton := by
    unfold rankLocators
    exact List.mergeSort_of_sorted (by decide)
  refine ⟨by decide, by decide, by decide, by decide, by rw [hr]; decide⟩

/-! ### C8 -/

/-- No test-identifier candidate has kind `text`. -/
theorem locTestId_filter_text (ed : ElemData) :
    (locTestId ed).filter (fun l => l.type == "text") = [] := by
  unfold locTestId
  split <;> simp

/-- No role candidate has kind `text`. -/
theorem locRole_filter_text (role an : Option String) :
    (locRole role an).filter (fun l => l.type == "text") = [] := by
  unfold locRole
  split <;> simp

/-- No `aria-label` candidate has kind `text`. -/
theorem locAriaLabel_filter_text (ed : ElemData) :
    (locAriaLabel ed).filter (fun l => l.type == "text") = [] := by
  unfold locAriaLabel
  split <;> (try split) <;> simp

/-- No bare-role candidate has kind `text`. -/
theorem locRoleAttr_filter_text (ed : ElemData) (an : Option String) :
    (locRoleAttr ed an).filter (fun l => l.type == "text") = [] := by
  unfold locRoleAttr
  split <;> (try split) <;> simp

/-- No form-label candidate has kind `text`. -/
theorem locLabel_filter_text (d : Doc) (ed : ElemData) :
    (locLabel d ed).filter (fun l => l.type == "text") = [] := by
  unfold locLabel
  split <;> try split
  all_goals simp

/-- No placeholder candidate has kind `text`. -/
theorem locPlaceholder_filter_text (ed : ElemData) :
    (locPlaceholder ed).filter (fun l => l.type == "text") = [] := by
  unfold locPlaceholder
  split <;> (try split) <;> simp

/-- No alt candidate has kind `text`. -/
theorem locAlt_filter_text (ed : ElemData) :
    (locAlt ed).filter (fun l => l.type == "text") = [] := by
  unfold locAlt
  split <;> (try split) <;> simp

/-- No title candidate has kind `text`. -/
theorem locTitle_filter_text (ed : ElemData) :
    (locTitle ed).filter (fun l => l.type == "text") = [] := by
  unfold locTitle
  split <;> (try split) <;> simp

/-- No name candidate has kind `text`. -/
theorem locName_filter_text (ed : ElemData) :
    (locName ed).filter (fun l => l.type == "text") = [] := by
  unfold locName
  split <;> (try split) <;> simp

/-- No id candidate has kind `text`. -/
theorem locId_filter_text (ed : ElemData) :
    (locId ed).filter (fun l => l.type == "text") = [] := by
  unfold locId
  split <;> simp

/-- No CSS candidate has kind `text`. -/
theorem locCss_filter_text (d : Doc) (p : List Nat) :
    (locCss d p).filter (fun l => l.type == "text") = [] := by
  unfold locCss
  by_cases h : generateCssSelector d p ≠ "" <;> simp [h]

/-- No XPath candidate has kind `text`. -/
theorem locXPath_filter_text (d : Doc) (p : List Nat) :
    (locXPath d p).filter (fun l => l.type == "text") = [] := by
  unfold locXPath
  simp

/-- Every text-block candidate has kind `text`. -/
theorem locText_filter_text (node : DomNode) :
    (locText node).filter (fun l => l.type == "text") = locText node := by
  unfold locText
  split <;> try split
  all_goals simp

/-- Membership characterization of the text block. -/
theorem mem_locText_iff (node : DomNode) (lc : Locator) :
    lc ∈ locText node ↔ ∃ t, getStableText node = some t ∧ t.length < 100 ∧
      lc = ⟨"text", "text=\"" ++ t ++ "\"", "Visible text content", "playwright", none⟩ := by
  unfold locText
  rcases h : getStableText node with _ | t
  · simp
  · by_cases hlen : t.length < 100 <;> simp [hlen]

/-- C8 amended: a text candidate is generated exactly when the trimmed,
whitespace-collapsed text content is non-empty and STRICTLY SHORTER than
100 characters (the code tests `text.length < 100` after truncating to 100
characters, so content of collapsed length 100 or more yields no
candidate), and the candidate's expression is `text="X"` with the
collapsed text. -/
theorem claim8_text_candidate_iff (d : Doc) (p : List Nat) (ed : ElemData)
    (cs : List DomNode) (hn : docNode d p = some (.elem ed cs)) :
    ((generateLocators d p).filter (fun l => l.type == "text") =
      match getStableText (DomNode.elem ed cs) with
      | some t =>
        if t.length < 100 then
          [⟨"text", "text=\"" ++ t ++ "\"", "Visible text content", "playwright", none⟩]
        else []
      | none => []) ∧
    ((∃ lc ∈ generateLocators d p, lc.type = "text") ↔
      ∃ t, getStableText (DomNode.elem ed cs) = some t ∧ t.length < 100) := by
  have hfilter : (generateLocators d p).filter (fun l => l.type == "text") =
      locText (DomNode.elem ed cs) := by
    simp only [generateLocators, hn, List.filter_append, locTestId_filter_text,
      locRole_filter_text, locAriaLabel_filter_text, locRoleAttr_filter_text,
      locLabel_filter_text, locPlaceholder_filter_text, locAlt_filter_text,
      locTitle_filter_text, locName_filter_text, locId_filter_text,
      locCss_filter_text, locXPath_filter_text, locText_filter_text,
      List.nil_append, List.append_nil]
  constructor
  · rw [hfilter]
    unfold locText
    rfl
  · constructor
    · rintro ⟨lc, hmem, htype⟩
      have hmf : lc ∈ (generateLocators d p).filter (fun l => l.type == "text") :=
        List.mem_filter.mpr ⟨hmem, by simp [htype]⟩
      rw [hfilter] at hmf
      obtain ⟨t, hst, hlen, -⟩ := (mem_locText_iff _ lc).mp hmf
      exact ⟨t, hst, hlen⟩
    · rintro ⟨t, hst, hlen⟩
      refine ⟨⟨"text", "text=\"" ++ t ++ "\"", "Visible text content", "playwright", none⟩,
        ?_, rfl⟩
      have hmf : (⟨"text", "text=\"" ++ t ++ "\"", "Visible text content", "playwright",
          none⟩ : Locator) ∈ (generateLocators d p).filter (fun l => l.type == "text") := by
        rw [hfilter]
        exact (mem_locText_iff _ _).mpr ⟨t, hst, hlen, rfl⟩
      exact (List.mem_filter.mp hmf).1

/-- Witness for C8's amended claim: the scenario button's collapsed text
`Login` is short, so its text candidate appears. -/
theorem claim8_witness :
    ∃ lc ∈ generateLocators scenarioDoc scenarioPath, lc.type = "text" :=
  ((claim8_text_candidate_iff scenarioDoc scenarioPath scenarioButton
      [DomNode.text "Login"] rfl).2).mpr ⟨"Login", by decide, by decide⟩

/-- A 100-character text content (one hundred `a`s). -/
def hundredChars : String :=
  "aaaaaaaaaaaaaaaaaaaaaaaaaaaaaaaaaaaaaaaaaaaaaaaaaaaaaaaaaaaaaaaaaaaaaaaaaaaaaaaaaaaaaaaaaaaaaaaaaaaa"

/-- Button whose text content is exactly 100 characters. -/
def hundredButton : ElemData := { tagName := "BUTTON", attrs := [] }

/-- Document for the C8 counterexample. -/
def hundredDoc : Doc :=
  { root := .elem { tagName := "HTML", attrs := [] }
      [.elem { tagName := "BODY", attrs := [] } [.elem hundredButton [.text hundredChars]]] }

/-- C8 counterexample: a trimmed, collapsed text of exactly 100 characters
(which the claim's "at most 100" admits) produces NO text candidate, since
the code requires `length < 100` strictly. -/
theorem claim8_counterexample :
    getStableText (DomNode.elem hundredButton [DomNode.text hundredChars]) =
      some hundredChars ∧
    hundredChars.length = 100 ∧
    (generateLocators hundredDoc [0, 0]).filter (fun l => l.type == "text") = [] := by
  decide

end LocatorInspector
